import Mathlib

/-!
Verification of the gltfio import pipeline (AssetLoader.cpp, FFilamentAsset.h,
AnimationHelper.cpp) against its natural-language specification.

The embedding is shallow: the parsed glTF document is a read-only tree of Lean
structures, the loader is a pure state-passing function over an explicit
`LoaderState`, and engine-side objects (entities, vertex/index buffers, material
instances) are fresh natural-number handles drawn from counters, with
creation/destruction logs so that resource lifecycles are observable.
Floating-point values are modelled as rationals. Raw buffer bytes are not part
of the model: the build never reads them (it only records byte ranges), which
the embedding reflects by construction.
-/

namespace Gltfio

/-- Primitive topology of a glTF primitive (cgltf_primitive_type). -/
inductive Topology where
  | points | lines | lineLoop | lineStrip | triangles | triangleStrip | triangleFan
deriving DecidableEq, Repr

/-- Accessor component type (cgltf_component_type). -/
inductive ComponentType where
  | r8 | r8u | r16 | r16u | r32u | r32f
deriving DecidableEq, Repr

/-- Accessor element shape (cgltf_type), restricted to the shapes the loader meets. -/
inductive AccType where
  | scalar | vec2 | vec3 | vec4 | mat4
deriving DecidableEq, Repr

/-- Vertex attribute semantic (cgltf_attribute_type). -/
inductive AttrKind where
  | position | normal | tangent | texcoord | color | joints | weights | invalid
deriving DecidableEq, Repr

/-- Modelled from the spec: `getPrimitiveType` from GltfEnums.h (not in src/).
Per §4.1 the supported topologies are points, lines and triangles; every other
topology is rejected as a per-primitive build error. -/
def getPrimitiveType : Topology → Bool
  | .points => true
  | .lines => true
  | .triangles => true
  | _ => false

/-- Modelled from the spec: `getIndexType` from GltfEnums.h (not in src/).
Per §4.1/§7 unsupported index component types are a per-primitive error; the
engine index types are 16-bit and 32-bit unsigned. -/
def getIndexType : ComponentType → Bool
  | .r16u => true
  | .r32u => true
  | _ => false

/-- Modelled from the spec: `getVertexAttribute` from GltfEnums.h (not in src/).
An unrecognized attribute semantic is a per-primitive error (§7). -/
def getVertexAttribute : AttrKind → Bool
  | .invalid => false
  | _ => true

/-- Modelled from the spec: `getElementType` from GltfEnums.h (not in src/).
Per §7 an unsupported accessor element/component combination is a per-primitive
error; matrix-shaped vertex elements are not an engine vertex element type. -/
def getElementType : AccType → ComponentType → Bool
  | .mat4, _ => false
  | _, _ => true

/-! ### Animation sample decoding (AnimationHelper.cpp lines 82-121)

The converters reinterpret a byte range as a typed component array and decode
componentwise; the embedding takes the typed component list directly. -/

/-- Modelled from the spec: `unpackSnorm8` from filament math/norm.h (not in
src/): a signed 8-bit normalized component v decodes to v / (2^7 - 1) clamped
to [-1, 1] (§4.4). -/
def unpackSnorm8 (v : Int) : ℚ := max (-1) (min 1 ((v : ℚ) / 127))

/-- Modelled from the spec: `unpackSnorm16` from filament math/norm.h (not in
src/): a signed 16-bit normalized component v decodes to v / (2^15 - 1) clamped
to [-1, 1] (§4.4). -/
def unpackSnorm16 (v : Int) : ℚ := max (-1) (min 1 ((v : ℚ) / 32767))

/-- Modelled from the spec: `unpackUnorm8` from filament math/norm.h (not in
src/): an unsigned 8-bit normalized component v decodes to v / (2^8 - 1) (§4.4). -/
def unpackUnorm8 (v : Nat) : ℚ := (v : ℚ) / 255

/-- Modelled from the spec: `unpackUnorm16` from filament math/norm.h (not in
src/): an unsigned 16-bit normalized component v decodes to v / (2^16 - 1) (§4.4). -/
def unpackUnorm16 (v : Nat) : ℚ := (v : ℚ) / 65535

/-- convert8 (AnimationHelper.cpp line 82): decode a signed 8-bit normalized array. -/
def convert8 (src : List Int) : List ℚ := src.map unpackSnorm8

/-- convert8U (AnimationHelper.cpp line 91): decode an unsigned 8-bit normalized array. -/
def convert8U (src : List Nat) : List ℚ := src.map unpackUnorm8

/-- convert16 (AnimationHelper.cpp line 99): decode a signed 16-bit normalized array. -/
def convert16 (src : List Int) : List ℚ := src.map unpackSnorm16

/-- convert16U (AnimationHelper.cpp line 108): decode an unsigned 16-bit normalized array. -/
def convert16U (src : List Nat) : List ℚ := src.map unpackUnorm16

/-- convert32F (AnimationHelper.cpp line 117): 32-bit float components are
copied unchanged (memcpy). -/
def convert32F (src : List ℚ) : List ℚ := src

/-- C9: the animation sample decoders follow the normalized-decode formulas:
signed 16-bit 32767 decodes to 1, signed 16-bit -32768 decodes to -1 after
clamping, unsigned 8-bit 255 decodes to 1 and 0 to 0, signed components are
v / (2^(n-1) - 1) clamped to [-1,1], unsigned components are v / (2^n - 1),
and 32-bit float components are copied unchanged. -/
theorem animation_decoders_normalized_decode :
    convert16 [32767, -32768] = [1, -1] ∧
    convert8U [255, 0] = [1, 0] ∧
    unpackSnorm16 32767 = 1 ∧ unpackSnorm16 (-32768) = -1 ∧
    unpackUnorm8 255 = 1 ∧ unpackUnorm8 0 = 0 ∧
    (∀ v : Int, unpackSnorm8 v = max (-1) (min 1 ((v : ℚ) / (2 ^ 7 - 1)))) ∧
    (∀ v : Int, unpackSnorm16 v = max (-1) (min 1 ((v : ℚ) / (2 ^ 15 - 1)))) ∧
    (∀ v : Nat, unpackUnorm8 v = (v : ℚ) / (2 ^ 8 - 1)) ∧
    (∀ v : Nat, unpackUnorm16 v = (v : ℚ) / (2 ^ 16 - 1)) ∧
    (∀ src : List ℚ, convert32F src = src) := by
  refine ⟨?_, ?_, ?_, ?_, ?_, ?_,
    fun v => by norm_num [unpackSnorm8],
    fun v => by norm_num [unpackSnorm16],
    fun v => by norm_num [unpackUnorm8],
    fun v => by norm_num [unpackUnorm16],
    fun src => rfl⟩ <;>
  norm_num [convert16, convert8U, unpackSnorm16, unpackUnorm8]

/-! ### Source document model (the parsed cgltf tree, read-only)

Pointer identities of the C++ tree (`cgltf_mesh*`, `cgltf_material*`) are
modelled as indices into the document's arrays; node hierarchies are embedded
as trees (cgltf guarantees each node has at most one parent). -/

/-- Accessor (cgltf_accessor), with its buffer view and buffer URI flattened in. -/
structure Accessor where
  count : Nat := 0
  offset : Nat := 0
  stride : Nat := 0
  componentType : ComponentType := .r32f
  shape : AccType := .scalar
  normalized : Bool := false
  viewOffset : Nat := 0
  viewSize : Nat := 0
  uri : String := ""
deriving DecidableEq, Repr

/-- Vertex attribute (cgltf_attribute): semantic plus data accessor. -/
structure Attribute where
  kind : AttrKind := .position
  data : Accessor := {}
deriving DecidableEq, Repr

/-- Primitive (cgltf_primitive). `material` is the source-material identity
(index into the document's material list), `none` when the pointer is null. -/
structure SrcPrim where
  topology : Topology := .triangles
  indices : Option Accessor := none
  attributes : List Attribute := []
  material : Option Nat := none
deriving DecidableEq, Repr

/-- Mesh (cgltf_mesh): a list of primitives. -/
structure SrcMesh where
  primitives : List SrcPrim := []
deriving DecidableEq, Repr

/-- Node (cgltf_node): optional mesh reference (index) and children. Local
transform values are irrelevant to the claims and are not modelled. -/
inductive SrcNode where
  | mk (mesh : Option Nat) (children : List SrcNode)

/-- Mesh reference of a node. -/
def SrcNode.meshRef : SrcNode → Option Nat
  | .mk m _ => m

/-- Children of a node. -/
def SrcNode.children : SrcNode → List SrcNode
  | .mk _ cs => cs

/-- Scene (cgltf_scene): its root nodes. -/
structure SrcScene where
  roots : List SrcNode := []

/-- Sampler configuration (cgltf_sampler wrap/filter settings). -/
structure SamplerCfg where
  wrapS : Nat := 0
  wrapT : Nat := 0
  magFilter : Nat := 0
  minFilter : Nat := 0
deriving DecidableEq, Repr

/-- Image (cgltf_image). -/
structure SrcImage where
  uri : String := ""
  mimeType : String := ""
deriving DecidableEq, Repr

/-- Texture (cgltf_texture): may lack an image reference. -/
structure SrcTexture where
  texName : String := ""
  image : Option SrcImage := none
  sampler : SamplerCfg := {}
deriving DecidableEq, Repr

/-- Texture view (cgltf_texture_view): a material's reference to a texture slot. -/
structure TextureSlot where
  texture : Option SrcTexture := none
  texcoord : Nat := 0
  scale : ℚ := 1
deriving DecidableEq, Repr

/-- Material (cgltf_material), restricted to the fields the loader reads. -/
structure SrcMaterial where
  doubleSided : Bool := false
  unlit : Bool := false
  hasPbr : Bool := false
  baseColorTexture : TextureSlot := {}
  metallicRoughnessTexture : TextureSlot := {}
  normalTexture : TextureSlot := {}
  occlusionTexture : TextureSlot := {}
  emissiveTexture : TextureSlot := {}
  emissiveFactor : List ℚ := [0, 0, 0]
  baseColorFactor : List ℚ := [1, 1, 1, 1]
  metallicFactor : ℚ := 1
  roughnessFactor : ℚ := 1
  hasSpecGloss : Bool := false
deriving DecidableEq, Repr

/-- Interpolation mode of an animation sampler. -/
inductive Interp where
  | linear | step | cubic
deriving DecidableEq, Repr

/-- Typed contents of an animation sampler's output accessor, one constructor
per supported component type (the byte blob reinterpreted as its typed array). -/
inductive RawValues where
  | i8 (vals : List Int)
  | u8 (vals : List Nat)
  | i16 (vals : List Int)
  | u16 (vals : List Nat)
  | f32 (vals : List ℚ)
  | unknown
deriving DecidableEq, Repr

/-- Animation sampler (cgltf_animation_sampler): decoded float contents of the
time accessor, typed contents of the value accessor, interpolation mode. -/
structure SrcAnimSampler where
  times : List ℚ := []
  values : RawValues := .f32 []
  interpolation : Interp := .linear
deriving DecidableEq, Repr

/-- Animation channel target path (cgltf_animation_path_type). -/
inductive ChannelPath where
  | translation | rotation | scale | weights | invalid
deriving DecidableEq, Repr

/-- Animation channel (cgltf_animation_channel): sampler index and target path. -/
structure SrcAnimChannel where
  samplerIdx : Nat := 0
  path : ChannelPath := .translation
deriving DecidableEq, Repr

/-- Animation (cgltf_animation). -/
structure SrcAnimation where
  animName : String := ""
  samplers : List SrcAnimSampler := []
  channels : List SrcAnimChannel := []
deriving DecidableEq, Repr

/-- Parsed document (cgltf_data), restricted to what the loader reads. -/
structure GltfData where
  scenes : List SrcScene := []
  defaultScene : Option Nat := none
  meshes : List SrcMesh := []
  materials : List SrcMaterial := []
  animations : List SrcAnimation := []

/-! ### Imported asset and loader state -/

/-- BufferBinding (FilamentAsset.h / AssetLoader.cpp lines 276-281 and 319-325):
destination buffer handles are numbers; exactly one of the two is set. -/
structure BufferBinding where
  uri : String := ""
  vertexBuffer : Option Nat := none
  indexBuffer : Option Nat := none
  bufferIndex : Nat := 0
  byteOffset : Nat := 0
  byteSize : Nat := 0
deriving DecidableEq, Repr

/-- TextureBinding (FilamentAsset.h / AssetLoader.cpp lines 414-420). -/
structure TextureBinding where
  uri : String := ""
  mimeType : String := ""
  materialInstance : Nat := 0
  materialParameter : String := ""
  sampler : SamplerCfg := {}
deriving DecidableEq, Repr

/-- Modelled from the spec: filament::Aabb (not in src/); a default-constructed
bounding box is empty (§3: empty/undefined when no min/max data is present). -/
inductive Aabb where
  | empty
  | box (minV maxV : List ℚ)
deriving DecidableEq, Repr

/-- FFilamentAsset (FFilamentAsset.h lines 41-115): the result container.
Fields default to the values the C++ members take on construction: empty
vectors, a null root entity (0), an empty bounding box. -/
structure Asset where
  entities : List Nat := []
  materialInstances : List Nat := []
  bufferBindings : List BufferBinding := []
  textureBindings : List TextureBinding := []
  root : Nat := 0
  boundingBox : Aabb := .empty
deriving DecidableEq, Repr

/-- Primitive (AssetLoader.cpp lines 56-59): a mesh-cache slot holding the
Filament VertexBuffer / IndexBuffer handles, null (none) until built. -/
structure CachedPrim where
  vertices : Option Nat := none
  indices : Option Nat := none
deriving DecidableEq, Repr

/-- Record of one `builder.geometry(...)` call (AssetLoader.cpp line 229):
which entity's renderable attached which handles for which source
(mesh, primitive index). -/
structure GeomRecord where
  entity : Nat := 0
  mesh : Nat := 0
  prim : Nat := 0
  vertices : Option Nat := none
  indices : Option Nat := none
deriving DecidableEq, Repr

/-- Loader state (FAssetLoader members plus explicit creation/destruction logs
for engine-side objects, which the C++ performs through the engine and the
entity manager). Entity handles start at 1; 0 is the null Entity(). -/
structure LoaderState where
  nextEntity : Nat := 1
  nextHandle : Nat := 0
  createdEntities : List Nat := []
  destroyedEntities : List Nat := []
  createdVertexBuffers : List Nat := []
  createdIndexBuffers : List Nat := []
  destroyedBuffers : List Nat := []
  createdInstances : List Nat := []
  destroyedInstances : List Nat := []
  transforms : List (Nat × Nat) := []
  meshCache : List (Nat × List CachedPrim) := []
  matInstanceCache : List (Option Nat × Nat) := []
  geometries : List GeomRecord := []
  primBuilds : List (Nat × Nat × Nat × Nat) := []
  paramsLog : List (Nat × String × List ℚ) := []
  result : Asset := {}
  error : Bool := false
deriving DecidableEq, Repr

/-- Association-list lookup (the robin_map find). -/
def assocFind {α β : Type} [DecidableEq α] : List (α × β) → α → Option β
  | [], _ => none
  | e :: m, k => if e.1 = k then some e.2 else assocFind m k

/-- Association-list overwrite-or-insert (robin_map operator[] assignment). -/
def assocSet {α β : Type} [DecidableEq α] (m : List (α × β)) (k : α) (v : β) :
    List (α × β) :=
  if (assocFind m k).isSome then
    m.map fun e => if e.1 = k then (k, v) else e
  else m ++ [(k, v)]

/-- Mesh-cache slot for (mesh, primitive index); a missing entry reads as an
unbuilt slot (the C++ only reads slots of entries it has created). -/
def slotOf (s : LoaderState) (mi j : Nat) : CachedPrim :=
  match assocFind s.meshCache mi with
  | none => {}
  | some slots => slots.getD j {}

/-- Write one mesh-cache slot (the write through `outputPrim` at
AssetLoader.cpp lines 328-329). -/
def setSlot (s : LoaderState) (mi j : Nat) (p : CachedPrim) : LoaderState :=
  { s with meshCache :=
      s.meshCache.map fun e => if e.1 = mi then (e.1, e.2.set j p) else e }

/-- First-reference mesh-cache initialization (AssetLoader.cpp lines 204-207):
`mMeshCache[mesh].resize(nprims)` when the mesh key is absent. -/
def ensureMeshEntry (s : LoaderState) (mi n : Nat) : LoaderState :=
  match assocFind s.meshCache mi with
  | some _ => s
  | none => { s with meshCache := s.meshCache ++ [(mi, List.replicate n {})] }

/-- Append a buffer binding to the asset (mResult->mBufferBindings.emplace_back). -/
def pushBinding (s : LoaderState) (b : BufferBinding) : LoaderState :=
  { s with result := { s.result with
      bufferBindings := s.result.bufferBindings ++ [b] } }

/-- Append a setParameter call to the parameter log. -/
def pushParam (s : LoaderState) (inst : Nat) (n : String) (v : List ℚ) : LoaderState :=
  { s with paramsLog := s.paramsLog ++ [(inst, n, v)] }

/-! ### Material instances and texture bindings (AssetLoader.cpp lines 332-421) -/

/-- addTextureBinding (AssetLoader.cpp lines 403-421): a texture without an
image reference only logs a warning and records nothing; otherwise one texture
binding is appended with the resolved sampler settings. The error flag is
never touched. -/
def addTextureBinding (s : LoaderState) (inst : Nat) (paramName : String)
    (t : SrcTexture) : LoaderState :=
  match t.image with
  | none => s
  | some img =>
    { s with result := { s.result with textureBindings :=
        s.result.textureBindings ++
          [{ uri := img.uri, mimeType := img.mimeType, materialInstance := inst,
             materialParameter := paramName, sampler := t.sampler }] } }

/-- Texture slots of a material in processing order (AssetLoader.cpp lines
379-398): each slot is processed when its matkey flag holds, i.e. when the
texture pointer is non-null (and, for the two PBR slots, has_pbr holds). -/
def materialSlots (m : SrcMaterial) : List (String × Option SrcTexture) :=
  [(("baseColorMap" : String), if m.hasPbr then m.baseColorTexture.texture else none),
   (("metallicRoughnessMap" : String),
      if m.hasPbr then m.metallicRoughnessTexture.texture else none),
   (("normalMap" : String), m.normalTexture.texture),
   (("occlusionMap" : String), m.occlusionTexture.texture),
   (("emissiveMap" : String), m.emissiveTexture.texture)]

/-- Process one texture slot: call addTextureBinding when the slot is enabled. -/
def applySlot (inst : Nat) (s : LoaderState) (slot : String × Option SrcTexture) :
    LoaderState :=
  match slot.2 with
  | none => s
  | some t => addTextureBinding s inst slot.1 t

/-- The five guarded addTextureBinding calls (AssetLoader.cpp lines 379-398). -/
def processTextureSlots (s : LoaderState) (inst : Nat) (m : SrcMaterial) :
    LoaderState :=
  (materialSlots m).foldl (applySlot inst) s

/-- Scalar/vector parameter assignments (AssetLoader.cpp lines 367-377). -/
def setMaterialParams (s : LoaderState) (inst : Nat) (m : SrcMaterial) :
    LoaderState :=
  let s := pushParam s inst ("emissiveFactor") m.emissiveFactor
  let s := pushParam s inst ("normalScale") [m.normalTexture.scale]
  let s := pushParam s inst ("aoStrength") [m.occlusionTexture.scale]
  if m.hasPbr then
    let s := pushParam s inst ("baseColorFactor") m.baseColorFactor
    let s := pushParam s inst ("metallicFactor") [m.metallicFactor]
    pushParam s inst ("roughnessFactor") [m.roughnessFactor]
  else s

/-- Body of createMaterialInstance past the cache check (AssetLoader.cpp lines
338-398): create a fresh instance, append it to the asset's material-instance
list, set its parameters, then process the texture slots. A null material
pointer would fault in C++; this path is unreachable from the buggy cache check
and the model totalizes it with a default material. -/
def buildMaterialInstance (d : GltfData) (s : LoaderState) (matId : Option Nat) :
    LoaderState × Nat :=
  let m := match matId with
           | some i => d.materials.getD i {}
           | none => {}
  let inst := s.nextHandle
  let s := { s with nextHandle := inst + 1,
                    createdInstances := s.createdInstances ++ [inst],
                    result := { s.result with materialInstances :=
                        s.result.materialInstances ++ [inst] } }
  let s := setMaterialParams s inst m
  let s := processTextureSlots s inst m
  (s, inst)

/-- createMaterialInstance (AssetLoader.cpp lines 332-401), as written: the
cache check at line 334 reads `if (iter == mMatInstanceCache.end()) return
iter->second;` — on a cache MISS it dereferences the end iterator and returns
an invalid instance (modelled as none) without building or inserting anything;
only on a cache HIT does it fall through, build a fresh instance and overwrite
the cache entry at line 400. -/
def createMaterialInstanceCode (d : GltfData) (s : LoaderState)
    (matId : Option Nat) : LoaderState × Option Nat :=
  match assocFind s.matInstanceCache matId with
  | none => (s, none)
  | some _ =>
      let (s1, inst) := buildMaterialInstance d s matId
      ({ s1 with matInstanceCache := assocSet s1.matInstanceCache matId inst },
       some inst)

/-! ### Primitive construction (AssetLoader.cpp lines 253-330) -/

/-- Supported-attribute check for one attribute (AssetLoader.cpp lines 292-302):
getVertexAttribute on the semantic and getElementType on the accessor's
shape/component combination. -/
def attrSupported (a : Attribute) : Bool :=
  getVertexAttribute a.kind && getElementType a.data.shape a.data.componentType

/-- Index-accessor buffer binding (AssetLoader.cpp lines 276-281): byte offset
is buffer-view offset plus accessor offset; byte size is the buffer-view size. -/
def indexBindingOf (iacc : Accessor) (ib : Nat) : BufferBinding :=
  { uri := iacc.uri, indexBuffer := some ib,
    byteOffset := iacc.viewOffset + iacc.offset, byteSize := iacc.viewSize }

/-- Attribute buffer binding (AssetLoader.cpp lines 319-325): the vertex buffer
at this attribute's buffer index; byte offset is the buffer-view offset alone. -/
def attrBindingOf (vb : Nat) (i : Nat) (a : Attribute) : BufferBinding :=
  { uri := a.data.uri, vertexBuffer := some vb, bufferIndex := i,
    byteOffset := a.data.viewOffset, byteSize := a.data.viewSize }

/-- createPrimitive (AssetLoader.cpp lines 253-330). On a missing index
accessor or an unsupported index component type: set the error flag and return
with the slot untouched. Otherwise build the index buffer and record its
binding, then check every attribute (the C++ loop returns at the first
unsupported one, before any vertex buffer exists); on success build the vertex
buffer, record one binding per attribute, and return the built slot. The
build never reads buffer bytes: the model carries none. -/
def createPrimitive (s : LoaderState) (mi j : Nat) (p : SrcPrim) :
    LoaderState × CachedPrim :=
  match p.indices with
  | none => ({ s with error := true }, {})
  | some iacc =>
    if getIndexType iacc.componentType = false then ({ s with error := true }, {})
    else
      let ib := s.nextHandle
      let s := { s with nextHandle := ib + 1,
                        createdIndexBuffers := s.createdIndexBuffers ++ [ib] }
      let s := pushBinding s (indexBindingOf iacc ib)
      if p.attributes.all attrSupported then
        let vb := s.nextHandle
        let s := { s with nextHandle := vb + 1,
                          createdVertexBuffers := s.createdVertexBuffers ++ [vb] }
        let s := p.attributes.enum.foldl
          (fun s ai => pushBinding s (attrBindingOf vb ai.1 ai.2)) s
        let s := { s with primBuilds := s.primBuilds ++ [(mi, j, vb, ib)] }
        (s, { vertices := some vb, indices := some ib })
      else ({ s with error := true }, {})

/-! ### Scene-graph traversal (AssetLoader.cpp lines 156-251) -/

/-- One iteration of the primitive loop (AssetLoader.cpp lines 212-234): an
unsupported topology sets the error flag and continues (no geometry, no
material call); otherwise the slot is built if its vertex buffer is still
null (a failed build leaves the slot untouched), the renderable geometry is
attached with whatever handles the slot now holds, and a material instance is
requested for the primitive's material. -/
def processOnePrim (d : GltfData) (entity mi j : Nat) (p : SrcPrim)
    (s : LoaderState) : LoaderState :=
  if getPrimitiveType p.topology = false then { s with error := true }
  else
    let slot := slotOf s mi j
    let (s, slot) :=
      if slot.vertices = none then
        let (s1, r) := createPrimitive s mi j p
        if r.vertices = none then (s1, slot) else (setSlot s1 mi j r, r)
      else (s, slot)
    let s := { s with geometries := s.geometries ++
        [{ entity := entity, mesh := mi, prim := j,
           vertices := slot.vertices, indices := slot.indices }] }
    (createMaterialInstanceCode d s p.material).1

/-- The primitive loop of createEntity, indexed from j. -/
def processPrims (d : GltfData) (entity mi : Nat) :
    Nat → List SrcPrim → LoaderState → LoaderState
  | _, [], s => s
  | j, p :: rest, s =>
      processPrims d entity mi (j + 1) rest (processOnePrim d entity mi j p s)

/-- Mesh branch of createEntity (AssetLoader.cpp lines 197-246): ensure the
mesh-cache entry exists with one unbuilt slot per primitive, then run the
primitive loop. An out-of-range mesh index is unreachable for parser-valid
documents (mesh pointers are always valid). -/
def processMesh (d : GltfData) (entity mi : Nat) (s : LoaderState) : LoaderState :=
  match d.meshes[mi]? with
  | none => s
  | some mesh =>
    let s := ensureMeshEntry s mi mesh.primitives.length
    processPrims d entity mi 0 mesh.primitives s

mutual

/-- createEntity (AssetLoader.cpp lines 186-251): create a fresh entity, give
it a transform whose parent is the parent entity's transform instance (the
null instance — recorded as parent 0 — when the parent entity has no
transform, which is the case for the null Entity() passed at the root calls),
process the mesh if present, then recurse into the children with this entity
as parent. The entity is never appended to the asset's entity list. -/
def createEntity (d : GltfData) (parent : Nat) (s : LoaderState) :
    SrcNode → LoaderState
  | .mk mesh children =>
    let e := s.nextEntity
    let s := { s with nextEntity := e + 1,
                      createdEntities := s.createdEntities ++ [e] }
    let parentT := if s.transforms.any (fun t => decide (t.1 = parent))
                   then parent else 0
    let s := { s with transforms := s.transforms ++ [(e, parentT)] }
    let s := match mesh with
             | none => s
             | some mi => processMesh d e mi s
    createEntityList d e s children

/-- Children loop of createEntity (AssetLoader.cpp lines 248-250). -/
def createEntityList (d : GltfData) (parent : Nat) (s : LoaderState) :
    List SrcNode → LoaderState
  | [] => s
  | n :: ns => createEntityList d parent (createEntity d parent s n) ns

end

/-- Scene selection (AssetLoader.cpp line 162): the declared default scene,
else the first declared scene, else none (zero scenes). -/
def chosenScene (d : GltfData) : Option SrcScene :=
  match d.defaultScene with
  | some i => d.scenes[i]?
  | none => d.scenes.head?

/-- Output of one build call. `pre` is the loader state after the traversal,
before the error check and transient-cache cleanup; `final` is the state
handed back to the caller. -/
structure BuildOutput where
  pre : LoaderState
  final : LoaderState
  asset : Option Asset
deriving DecidableEq, Repr

/-- Transient-cache cleanup (AssetLoader.cpp lines 179-183). -/
def clearTransient (s : LoaderState) : LoaderState :=
  { s with meshCache := [], matInstanceCache := [], error := false }

/-- The `delete mResult` on the failure path (AssetLoader.cpp line 175):
FFilamentAsset's destructor (FFilamentAsset.h lines 44-47) only calls
releaseSourceData — the comment reads TODO free all Filament objects — so the
asset container is dropped but no entity, buffer or material instance is
destroyed: the destroyed-logs stay untouched. -/
def destroyAssetObject (s : LoaderState) : LoaderState :=
  { s with result := {} }

/-- createAsset (AssetLoader.cpp lines 156-184): allocate a fresh result, pick
the scene (zero scenes returns the empty asset immediately, skipping cleanup),
traverse every root, then on error delete the partially built asset and return
failure, else return the result; clear the transient caches either way. -/
def createAsset (d : GltfData) (s0 : LoaderState) : BuildOutput :=
  let s := { s0 with result := {} }
  match chosenScene d with
  | none => { pre := s, final := s, asset := some s.result }
  | some scene =>
    let s := createEntityList d 0 s scene.roots
    if s.error then
      { pre := s, final := clearTransient (destroyAssetObject s), asset := none }
    else
      { pre := s, final := clearTransient s, asset := some s.result }

/-- One build call on a fresh loader. -/
def buildAsset (d : GltfData) : BuildOutput := createAsset d {}

/-- Number of nodes in a tree (for the reachable-node count of C3). -/
def nodeCount : SrcNode → Nat
  | .mk _ cs => 1 + forestCount cs
where
  /-- Number of nodes in a forest. -/
  forestCount : List SrcNode → Nat
    | [] => 0
    | n :: ns => nodeCount n + forestCount ns

/-! ### AnimationHelper (AnimationHelper.cpp lines 47-244) -/

/-- Transform property targeted by a channel (AnimationHelper.cpp line 60). -/
inductive TransformType where
  | translation | rotation | scale
deriving DecidableEq, Repr

/-- Sampler (AnimationHelper.cpp lines 51-55). `times` models the
std::set<float>: deduplicated, ascending. -/
structure DstSampler where
  times : List ℚ := []
  values : List ℚ := []
  interpolation : Interp := .linear
deriving DecidableEq, Repr

/-- Channel (AnimationHelper.cpp lines 57-61); transformType is none while the
enum member is still unassigned (setTransformType assigns nothing for weights
or invalid paths). -/
structure DstChannel where
  samplerIdx : Nat := 0
  transformType : Option TransformType := none
deriving DecidableEq, Repr

/-- Animation record (AnimationHelper.cpp lines 63-68). `duration` is none
while the float member is still unassigned (indeterminate); `animName` is the
default-constructed empty string. -/
structure DstAnimation where
  duration : Option ℚ := none
  animName : String := ""
  samplers : List DstSampler := []
  channels : List DstChannel := []
deriving DecidableEq, Repr

/-- Ordered insertion into a sorted duplicate-free list (std::set insertion). -/
def insertTime (x : ℚ) : List ℚ → List ℚ
  | [] => [x]
  | y :: ys =>
    if Rat.blt x y then x :: y :: ys
    else if x = y then y :: ys
    else y :: insertTime x ys

/-- Contents of `TimeValues(first, last)` (AnimationHelper.cpp line 129): the
source time values deduplicated and sorted ascending. -/
def timeSet (l : List ℚ) : List ℚ := l.foldl (fun acc x => insertTime x acc) []

/-- Componentwise decode of the value accessor by component type
(AnimationHelper.cpp lines 134-153); the default case logs an error and
returns with the values still empty. -/
def decodeValues : RawValues → List ℚ
  | .i8 v => convert8 v
  | .u8 v => convert8U v
  | .i16 v => convert16 v
  | .u16 v => convert16U v
  | .f32 v => convert32F v
  | .unknown => []

/-- createSampler (AnimationHelper.cpp lines 123-166): copy the time values
into an ordered set, decode the value array, store the interpolation mode; an
unknown component type returns early, leaving values empty and the
interpolation at its zero-initialized default. -/
def createSampler (src : SrcAnimSampler) : DstSampler :=
  match src.values with
  | .unknown => { times := timeSet src.times }
  | v => { times := timeSet src.times, values := decodeValues v,
           interpolation := src.interpolation }

/-- setTransformType (AnimationHelper.cpp lines 168-184): weights and invalid
paths log an error and assign nothing. -/
def setTransformType : ChannelPath → Option TransformType
  | .translation => some .translation
  | .rotation => some .rotation
  | .scale => some .scale
  | .weights => none
  | .invalid => none

/-- One animation record as filled in by the AnimationHelper constructor
(AnimationHelper.cpp lines 202-223): samplers and channels are populated, but
the record's name and duration members are never assigned. -/
def animationRecord (a : SrcAnimation) : DstAnimation :=
  { duration := none
    animName := ""
    samplers := a.samplers.map createSampler
    channels := a.channels.map fun c =>
      { samplerIdx := c.samplerIdx, transformType := setTransformType c.path } }

/-- AnimationHelper constructor (AnimationHelper.cpp lines 186-224): one
record per source animation. -/
def animationHelperInit (d : GltfData) : List DstAnimation :=
  d.animations.map animationRecord

/-- getAnimationDuration (AnimationHelper.cpp lines 238-240); reads the
(never-assigned) duration member. -/
def getAnimationDuration (anims : List DstAnimation) (i : Nat) : Option ℚ :=
  (anims.getD i {}).duration

/-- getAnimationName (AnimationHelper.cpp lines 242-244); reads the
(never-assigned) name member. -/
def getAnimationName (anims : List DstAnimation) (i : Nat) : String :=
  (anims.getD i {}).animName

/-! ### Concrete test documents -/

/-- A 16-bit-unsigned index accessor into "buf.bin". -/
def idxAcc : Accessor :=
  { componentType := .r16u, uri := "buf.bin", viewSize := 6, offset := 4,
    viewOffset := 10 }

/-- A float vec3 position attribute. -/
def posAttr : Attribute :=
  { kind := .position,
    data := { componentType := .r32f, shape := .vec3, uri := "buf.bin",
              viewOffset := 16, viewSize := 36 } }

/-- An indexed-triangles primitive with one attribute, using material 0. -/
def triPrim : SrcPrim :=
  { indices := some idxAcc, attributes := [posAttr], material := some 0 }

/-- One scene, one node, whose mesh has two valid primitives that both
reference source material 0. -/
def DocTwoPrimsOneMaterial : GltfData :=
  { scenes := [{ roots := [.mk (some 0) []] }],
    meshes := [{ primitives := [triPrim, triPrim] }],
    materials := [{}] }

/-- One scene with two root nodes: the first node's mesh has a primitive with
no index accessor (a structural error), the second node's mesh has two valid
primitives. -/
def DocMissingIndices : GltfData :=
  { scenes := [{ roots := [.mk (some 0) [], .mk (some 1) []] }],
    meshes := [{ primitives := [{ indices := none, attributes := [posAttr],
                                  material := some 0 }] },
               { primitives := [triPrim, triPrim] }],
    materials := [{}] }

/-- The node forest of DocTwoNodes: a root with one child, no meshes. -/
def twoNodesRoots : List SrcNode := [.mk none [.mk none []]]

/-- One scene whose root node has a single child; neither has a mesh. -/
def DocTwoNodes : GltfData := { scenes := [{ roots := twoNodesRoots }] }

/-- One animation named walk with a single sampler whose time accessor holds
2, 0, 1, 1 (maximum 2) and whose values are 32-bit floats. -/
def DocAnimWalk : GltfData :=
  { animations := [{ animName := "walk",
                     samplers := [{ times := [2, 0, 1, 1],
                                    values := .f32 [5, 6, 7, 8] }] }] }

/-! ### Claim theorems: C1 - C4, C7, C8 -/

/-- C1 (code bug): createMaterialInstance inverts its cache check
(AssetLoader.cpp line 334: `if (iter == mMatInstanceCache.end()) return
iter->second;`). On a cache miss — every call, since nothing is ever
inserted — it dereferences the end iterator and returns an invalid instance
without building or caching anything. Building a document whose two visited
primitives reference one distinct source material therefore yields an empty
material-instance list (the claim requires one entry), no created instances,
and an empty cache. -/
theorem material_instance_cache_inverted :
    createMaterialInstanceCode DocTwoPrimsOneMaterial {} (some 0) = ({}, none) ∧
    ((buildAsset DocTwoPrimsOneMaterial).asset.map Asset.materialInstances) =
      some [] ∧
    (buildAsset DocTwoPrimsOneMaterial).pre.createdInstances = [] ∧
    (buildAsset DocTwoPrimsOneMaterial).pre.matInstanceCache = [] :=
  ⟨rfl, rfl, rfl, rfl⟩

/-- C2 (code bug): on DocMissingIndices the build does complete the full
traversal (both root nodes get entities; the second node's buffers are built
after the first node's primitive failed) and returns failure with no asset,
but nothing created during the failed call is destroyed before returning:
FFilamentAsset's destructor only releases source data (FFilamentAsset.h line
46: TODO free all Filament objects), so every entity, index buffer and vertex
buffer created during the call leaks. -/
theorem failed_build_leaks_created_objects :
    (buildAsset DocMissingIndices).asset = none ∧
    (buildAsset DocMissingIndices).pre.createdEntities = [1, 2] ∧
    (buildAsset DocMissingIndices).pre.createdIndexBuffers = [0, 2] ∧
    (buildAsset DocMissingIndices).pre.createdVertexBuffers = [1, 3] ∧
    (buildAsset DocMissingIndices).final.destroyedEntities = [] ∧
    (buildAsset DocMissingIndices).final.destroyedBuffers = [] ∧
    (buildAsset DocMissingIndices).final.destroyedInstances = [] :=
  ⟨rfl, rfl, rfl, rfl, rfl, rfl, rfl⟩

/-- C3 (code bug): createEntity never appends the created entity to the
asset's entity list (mResult->mEntities is never written anywhere in
AssetLoader.cpp), so a successful build of a document with two reachable
nodes returns an entity list of length 0 while the claim requires
getEntityCount = 2. -/
theorem entity_list_stays_empty :
    ((buildAsset DocTwoNodes).asset.map Asset.entities) = some [] ∧
    nodeCount.forestCount twoNodesRoots = 2 :=
  ⟨rfl, rfl⟩

/-- C4 (code bug): no synthetic root entity exists. createAsset passes the
null Entity() as the parent of every scene root (AssetLoader.cpp line 171)
and never assigns mRoot, so getRoot returns the null entity 0, which was
never created and carries no transform, and the root node's entity (1) is
parented to the null transform instance (recorded parent 0) rather than to
any synthetic root. -/
theorem no_synthetic_root_entity :
    ((buildAsset DocTwoNodes).asset.map Asset.root) = some 0 ∧
    (buildAsset DocTwoNodes).pre.createdEntities.contains 0 = false ∧
    (buildAsset DocTwoNodes).pre.transforms = [(1, 0), (2, 1)] :=
  ⟨rfl, rfl, rfl⟩

/-- C7: a document with zero scenes builds successfully into the fresh empty
asset — non-null, zero entities, empty bounding box (AssetLoader.cpp lines
162-165) — and when at least one scene exists but none is declared default,
the first declared scene is the one chosen for traversal (line 162). -/
theorem zero_scenes_succeed_first_scene_fallback :
    (∀ d : GltfData, d.scenes = [] →
      (buildAsset d).asset = some {} ∧
      ((buildAsset d).asset.map Asset.entities) = some [] ∧
      ((buildAsset d).asset.map Asset.boundingBox) = some .empty) ∧
    (∀ (d : GltfData) (sc : SrcScene) (rest : List SrcScene),
      d.defaultScene = none → d.scenes = sc :: rest → chosenScene d = some sc) := by
  constructor
  · intro d h
    have hc : chosenScene d = none := by
      unfold chosenScene
      cases hd : d.defaultScene <;> simp [h]
    refine ⟨?_, ?_, ?_⟩ <;> simp [buildAsset, createAsset, hc]
  · intro d sc rest hdef hsc
    unfold chosenScene
    rw [hdef, hsc]
    rfl

/-- Witness for C7: a concrete zero-scene document builds to the empty asset,
and a concrete two-scene document with no declared default chooses its first
scene. -/
theorem zero_scenes_witness :
    (buildAsset {} : BuildOutput).asset = some {} ∧
    chosenScene { scenes := [{ roots := [] }, { roots := twoNodesRoots }] } =
      some { roots := [] } :=
  ⟨(zero_scenes_succeed_first_scene_fallback.1 {} rfl).1,
   zero_scenes_succeed_first_scene_fallback.2 _ _ _ rfl rfl⟩

/-- C8 (code bug): the AnimationHelper constructor produces one record per
source animation and per-sampler time sets that are deduplicated and
ascending, but it never assigns the record's name or duration members
(AnimationHelper.cpp lines 202-223 fill only samplers and channels): for the
animation named walk with maximum sampler time 2, the stored name is the
empty string and the duration is still unassigned. -/
theorem animation_name_duration_unassigned :
    getAnimationName (animationHelperInit DocAnimWalk) 0 = "" ∧
    getAnimationDuration (animationHelperInit DocAnimWalk) 0 = none ∧
    (animationHelperInit DocAnimWalk).map DstAnimation.samplers =
      [[{ times := [0, 1, 2], values := [5, 6, 7, 8],
          interpolation := .linear }]] ∧
    (animationHelperInit DocAnimWalk).length = 1 :=
  ⟨rfl, rfl, rfl, rfl⟩

/-! ### C10: texture slots without an image -/

/-- The texture binding a slot contributes: none when the slot is disabled or
its texture carries no image reference. -/
def slotBindingOf (inst : Nat) (slot : String × Option SrcTexture) :
    Option TextureBinding :=
  match slot.2 with
  | none => none
  | some t =>
    match t.image with
    | none => none
    | some img =>
      some { uri := img.uri, mimeType := img.mimeType, materialInstance := inst,
             materialParameter := slot.1, sampler := t.sampler }

/-- Effect of processing one texture slot: it appends exactly the slot's
contributed binding (if any) and touches nothing else. -/
lemma applySlot_effect (inst : Nat) (s : LoaderState)
    (slot : String × Option SrcTexture) :
    applySlot inst s slot =
      { s with result := { s.result with textureBindings :=
          s.result.textureBindings ++ (slotBindingOf inst slot).toList } } := by
  obtain ⟨name, t?⟩ := slot
  cases t? with
  | none => simp [applySlot, slotBindingOf]
  | some t =>
    cases himg : t.image with
    | none => simp [applySlot, addTextureBinding, slotBindingOf, himg]
    | some img => simp [applySlot, addTextureBinding, slotBindingOf, himg]

/-- Effect of processing a list of texture slots. -/
lemma foldSlots_effect (inst : Nat) :
    ∀ (L : List (String × Option SrcTexture)) (s : LoaderState),
    L.foldl (applySlot inst) s =
      { s with result := { s.result with textureBindings :=
          s.result.textureBindings ++ L.filterMap (slotBindingOf inst) } } := by
  intro L
  induction L with
  | nil => intro s; simp
  | cons a l ih =>
    intro s
    simp only [List.foldl_cons, ih, applySlot_effect, List.filterMap_cons]
    cases h : slotBindingOf inst a <;> simp [h]

/-- C10: for every material texture slot whose source texture carries no image
reference, processing the material's texture slots records no binding for that
slot (addTextureBinding returns after the warning), leaves the error flag
unchanged, and leaves the material-instance list and parameter assignments
untouched; the other slots contribute their bindings exactly as usual
(filterMap over the slot list). -/
theorem texture_without_image_records_nothing (s : LoaderState) (inst : Nat)
    (m : SrcMaterial) :
    (processTextureSlots s inst m).result.textureBindings =
      s.result.textureBindings ++
        (materialSlots m).filterMap (slotBindingOf inst) ∧
    (processTextureSlots s inst m).error = s.error ∧
    (processTextureSlots s inst m).result.materialInstances =
      s.result.materialInstances ∧
    (processTextureSlots s inst m).paramsLog = s.paramsLog ∧
    (∀ name t, t.image = none → slotBindingOf inst (name, some t) = none) := by
  have h := foldSlots_effect inst (materialSlots m) s
  refine ⟨?_, ?_, ?_, ?_, ?_⟩
  · rw [processTextureSlots, h]
  · rw [processTextureSlots, h]
  · rw [processTextureSlots, h]
  · rw [processTextureSlots, h]
  · intro name t himg
    simp [slotBindingOf, himg]

/-- A texture that carries no image reference. -/
def texNoImage : SrcTexture := { texName := "ntex" }

/-- A texture that does carry an image reference. -/
def texWithImage : SrcTexture :=
  { texName := "etex", image := some { uri := "e.png", mimeType := "image/png" } }

/-- The material combining both textures. -/
def matMissingImage : SrcMaterial :=
  { normalTexture := { texture := some texNoImage },
    emissiveTexture := { texture := some texWithImage } }

/-- Witness for C10: on a concrete material the missing-image normal slot
contributes no binding, the error flag stays clear, and the emissive slot's
binding still appears. -/
theorem texture_without_image_witness :
    slotBindingOf 7 (("normalMap" : String), some texNoImage) = none ∧
    (processTextureSlots {} 7 matMissingImage).error = false ∧
    (processTextureSlots {} 7 matMissingImage).result.textureBindings =
      [{ uri := "e.png", mimeType := "image/png", materialInstance := 7,
         materialParameter := "emissiveMap", sampler := {} }] := by
  have h := texture_without_image_records_nothing {} 7 matMissingImage
  refine ⟨h.2.2.2.2 ("normalMap") texNoImage rfl, ?_, ?_⟩
  · rw [h.2.1]
  · rw [h.1]
    simp [matMissingImage, materialSlots, slotBindingOf, texNoImage, texWithImage]

/-! ### C6: one buffer binding per accessor consumed -/

/-- Folding pushBinding over a list appends exactly the mapped bindings and
changes nothing else. -/
lemma foldl_pushBinding {α : Type} (f : α → BufferBinding) :
    ∀ (l : List α) (s : LoaderState),
    l.foldl (fun s a => pushBinding s (f a)) s =
      { s with result := { s.result with bufferBindings :=
          s.result.bufferBindings ++ l.map f } } := by
  intro l
  induction l with
  | nil => intro s; simp
  | cons a t ih =>
    intro s
    rw [List.foldl_cons, ih]
    simp [pushBinding]

/-- C6: a successfully built primitive with A attributes appends exactly 1 + A
buffer bindings: first the index binding — the index accessor's URI and byte
range (buffer-view offset + accessor offset, buffer-view size) bound to the
newly created index buffer — then one binding per attribute accessor — its URI
and byte range bound to the newly created vertex buffer at that attribute's
buffer index. Exactly one index buffer and one vertex buffer are created, the
returned slot holds them, and the error flag is untouched. The model of
createPrimitive takes no buffer contents at all: no source bytes are read
during the build. -/
theorem createPrimitive_one_binding_per_accessor
    (s : LoaderState) (mi j : Nat) (p : SrcPrim) (iacc : Accessor)
    (hidx : p.indices = some iacc)
    (hty : getIndexType iacc.componentType = true)
    (hattrs : p.attributes.all attrSupported = true) :
    (createPrimitive s mi j p).1.result.bufferBindings =
      s.result.bufferBindings ++
        indexBindingOf iacc s.nextHandle ::
          p.attributes.enum.map
            (fun ai => attrBindingOf (s.nextHandle + 1) ai.1 ai.2) ∧
    (createPrimitive s mi j p).1.result.bufferBindings.length =
      s.result.bufferBindings.length + 1 + p.attributes.length ∧
    (createPrimitive s mi j p).1.createdIndexBuffers =
      s.createdIndexBuffers ++ [s.nextHandle] ∧
    (createPrimitive s mi j p).1.createdVertexBuffers =
      s.createdVertexBuffers ++ [s.nextHandle + 1] ∧
    (createPrimitive s mi j p).2 =
      { vertices := some (s.nextHandle + 1), indices := some s.nextHandle } ∧
    (createPrimitive s mi j p).1.error = s.error := by
  have hmain : (createPrimitive s mi j p).1.result.bufferBindings =
      s.result.bufferBindings ++
        indexBindingOf iacc s.nextHandle ::
          p.attributes.enum.map
            (fun ai => attrBindingOf (s.nextHandle + 1) ai.1 ai.2) := by
    simp [createPrimitive, hidx, hty, hattrs, foldl_pushBinding]
    simp [pushBinding]
  refine ⟨hmain, ?_, ?_, ?_, ?_, ?_⟩
  · rw [hmain]
    simp [List.length_append, List.length_cons, List.length_map, List.enum_length]
    omega
  · simp [createPrimitive, hidx, hty, hattrs, foldl_pushBinding]
    simp [pushBinding]
  · simp [createPrimitive, hidx, hty, hattrs, foldl_pushBinding]
    simp [pushBinding]
  · simp [createPrimitive, hidx, hty, hattrs, foldl_pushBinding]
    simp [pushBinding]
  · simp [createPrimitive, hidx, hty, hattrs, foldl_pushBinding]
    simp [pushBinding]

/-- Witness for C6: the concrete triangle primitive (one attribute) appends
its index binding followed by its single attribute binding. -/
theorem createPrimitive_bindings_witness :
    (createPrimitive {} 0 0 triPrim).1.result.bufferBindings =
      ({} : LoaderState).result.bufferBindings ++
        indexBindingOf idxAcc ({} : LoaderState).nextHandle ::
          triPrim.attributes.enum.map
            (fun ai => attrBindingOf (({} : LoaderState).nextHandle + 1) ai.1 ai.2) ∧
    (createPrimitive {} 0 0 triPrim).1.result.bufferBindings.length =
      ({} : LoaderState).result.bufferBindings.length + 1 +
        triPrim.attributes.length := by
  have h := createPrimitive_one_binding_per_accessor {} 0 0 triPrim idxAcc
    rfl rfl (by decide)
  exact ⟨h.1, h.2.1⟩

/-! ### C5: one buffer pair per (mesh, primitive), reused by identity

The proof goes through an invariant on loader states: the primBuilds log and
the mesh cache agree (a slot is built exactly when exactly one buffer pair was
created for it, namely the cached one), every geometry attached in an
error-free run carries the cached handles, built slots are well-formed, and
every cache entry's slot count matches its mesh's primitive count. -/

/-- The buffer pairs a cache slot accounts for: one when built, none otherwise. -/
def slotBuilds (p : CachedPrim) : List (Nat × Nat) :=
  match p.vertices, p.indices with
  | some vb, some ib => [(vb, ib)]
  | _, _ => []

/-- The buffer pairs created for (mesh mi, primitive j), read off the build log. -/
def buildsFor (s : LoaderState) (mi j : Nat) : List (Nat × Nat) :=
  (s.primBuilds.filter fun r => decide (r.1 = mi) && decide (r.2.1 = j)).map
    fun r => r.2.2

/-- Number of slots of the cache entry for mesh mi, when present. -/
def slotLen (s : LoaderState) (mi : Nat) : Option Nat :=
  (assocFind s.meshCache mi).map List.length

/-- The build log and the mesh cache agree at every (mesh, primitive index). -/
def CacheAgrees (s : LoaderState) : Prop :=
  ∀ mi j, buildsFor s mi j = slotBuilds (slotOf s mi j)

/-- In an error-free state, every attached geometry carries exactly the
handles cached for its (mesh, primitive index). -/
def GeomsGood (s : LoaderState) : Prop :=
  s.error = false → ∀ g ∈ s.geometries, ∃ vb ib,
    g.vertices = some vb ∧ g.indices = some ib ∧
    slotOf s g.mesh g.prim = { vertices := some vb, indices := some ib }

/-- A slot with a vertex buffer also has an index buffer (slots are written
atomically). -/
def WfSlots (s : LoaderState) : Prop :=
  ∀ mi j, (slotOf s mi j).vertices.isSome = true → ∃ vb ib,
    slotOf s mi j = { vertices := some vb, indices := some ib }

/-- Every cache entry's slot count is its mesh's primitive count. -/
def MeshLensOk (d : GltfData) (s : LoaderState) : Prop :=
  ∀ mi slots, assocFind s.meshCache mi = some slots →
    ∃ mesh, d.meshes[mi]? = some mesh ∧ slots.length = mesh.primitives.length

/-- The loader invariant. -/
def Inv (d : GltfData) (s : LoaderState) : Prop :=
  CacheAgrees s ∧ GeomsGood s ∧ WfSlots s ∧ MeshLensOk d s

/-- What one loader step preserves: built slots keep their handles, the error
flag never clears, existing cache entries keep their slot count. -/
def Stable (s s' : LoaderState) : Prop :=
  (∀ mi j, (slotOf s mi j).vertices.isSome = true → slotOf s' mi j = slotOf s mi j) ∧
  (s.error = true → s'.error = true) ∧
  (∀ mi n, slotLen s mi = some n → slotLen s' mi = some n)

lemma stable_refl (s : LoaderState) : Stable s s :=
  ⟨fun _ _ _ => rfl, fun h => h, fun _ _ h => h⟩

lemma stable_trans {s1 s2 s3 : LoaderState} (h12 : Stable s1 s2)
    (h23 : Stable s2 s3) : Stable s1 s3 := by
  obtain ⟨a12, b12, c12⟩ := h12
  obtain ⟨a23, b23, c23⟩ := h23
  refine ⟨fun mi j h => ?_, fun h => b23 (b12 h), fun mi n h => c23 mi n (c12 mi n h)⟩
  have h2 := a12 mi j h
  have : (slotOf s2 mi j).vertices.isSome = true := by rw [h2]; exact h
  rw [a23 mi j this, h2]

lemma slotOf_congr {s s' : LoaderState} (h : s'.meshCache = s.meshCache)
    (mi j : Nat) : slotOf s' mi j = slotOf s mi j := by
  unfold slotOf assocFind
  rw [h]

lemma slotLen_congr {s s' : LoaderState} (h : s'.meshCache = s.meshCache)
    (mi : Nat) : slotLen s' mi = slotLen s mi := by
  unfold slotLen assocFind
  rw [h]

lemma buildsFor_congr {s s' : LoaderState} (h : s'.primBuilds = s.primBuilds)
    (mi j : Nat) : buildsFor s' mi j = buildsFor s mi j := by
  unfold buildsFor
  rw [h]

/-- A step that touches neither the mesh cache, the build log, the geometry
log nor the error flag preserves the invariant and is stable. -/
lemma inv_frame (d : GltfData) (s s' : LoaderState)
    (hm : s'.meshCache = s.meshCache)
    (hp : s'.primBuilds = s.primBuilds)
    (hg : s'.geometries = s.geometries)
    (he : s'.error = s.error)
    (h : Inv d s) : Inv d s' ∧ Stable s s' := by
  obtain ⟨hc, hgg, hwf, hml⟩ := h
  refine ⟨⟨?_, ?_, ?_, ?_⟩, ?_, ?_, ?_⟩
  · intro mi j
    rw [buildsFor_congr hp, slotOf_congr hm]
    exact hc mi j
  · intro herr g hmem
    rw [he] at herr
    rw [hg] at hmem
    obtain ⟨vb, ib, h1, h2, h3⟩ := hgg herr g hmem
    exact ⟨vb, ib, h1, h2, (slotOf_congr hm _ _).trans h3⟩
  · intro mi j hv
    rw [slotOf_congr hm] at hv ⊢
    exact hwf mi j hv
  · intro mi slots hfind
    apply hml mi slots
    unfold assocFind at hfind ⊢
    rw [hm] at hfind
    exact hfind
  · intro mi j _
    exact slotOf_congr hm mi j
  · intro herr
    rw [he]
    exact herr
  · intro mi n hlen
    rw [slotLen_congr hm]
    exact hlen

/-- Setting only the error flag preserves the invariant and is stable. -/
lemma inv_error {d : GltfData} {s : LoaderState} (h : Inv d s) :
    Inv d { s with error := true } ∧ Stable s { s with error := true } := by
  obtain ⟨hc, hgg, hwf, hml⟩ := h
  exact ⟨⟨hc, fun herr => absurd herr (by simp), hwf, hml⟩,
         fun _ _ _ => rfl, fun _ => rfl, fun _ _ hl => hl⟩

lemma assocFind_setSlot (s : LoaderState) (mi j : Nat) (p : CachedPrim)
    (mi' : Nat) :
    assocFind (setSlot s mi j p).meshCache mi' =
      (assocFind s.meshCache mi').map
        fun slots => if mi' = mi then slots.set j p else slots := by
  show assocFind (s.meshCache.map fun e =>
    if e.1 = mi then (e.1, e.2.set j p) else e) mi' = _
  generalize s.meshCache = m
  induction m with
  | nil => rfl
  | cons a t ih =>
    by_cases h1 : a.1 = mi <;> by_cases h2 : a.1 = mi'
    · subst h1; subst h2
      simp [assocFind]
    · subst h1
      simp [assocFind, h2, ih]
    · subst h2
      simp [assocFind, h1]
    · simp [assocFind, h1, h2, ih]

lemma getD_set_self {α : Type} (l : List α) (i : Nat) (a d : α)
    (h : i < l.length) : (l.set i a).getD i d = a := by
  rw [List.getD_eq_getD_get?, List.get?_eq_getElem?,
      List.getElem?_set_eq_of_lt a h]
  rfl

lemma getD_set_ne {α : Type} (l : List α) (i j : Nat) (a d : α) (h : i ≠ j) :
    (l.set i a).getD j d = l.getD j d := by
  rw [List.getD_eq_getD_get?, List.getD_eq_getD_get?, List.get?_eq_getElem?,
      List.get?_eq_getElem?, List.getElem?_set_ne h]

lemma slotOf_setSlot_same (s : LoaderState) (mi j : Nat) (p : CachedPrim)
    (slots : List CachedPrim) (hf : assocFind s.meshCache mi = some slots)
    (hj : j < slots.length) :
    slotOf (setSlot s mi j p) mi j = p := by
  unfold slotOf
  rw [assocFind_setSlot, hf]
  simp only [Option.map, if_pos rfl]
  exact getD_set_self slots j p _ hj

lemma slotOf_setSlot_ne (s : LoaderState) (mi j : Nat) (p : CachedPrim)
    (mi' j' : Nat) (h : mi' ≠ mi ∨ j' ≠ j) :
    slotOf (setSlot s mi j p) mi' j' = slotOf s mi' j' := by
  unfold slotOf
  rw [assocFind_setSlot]
  cases hf : assocFind s.meshCache mi' with
  | none => rfl
  | some slots =>
    simp only [Option.map]
    by_cases hmi : mi' = mi
    · have hj : j' ≠ j := by
        rcases h with h | h
        · exact absurd hmi h
        · exact h
      rw [if_pos hmi]
      exact getD_set_ne slots j j' p _ (Ne.symm hj)
    · rw [if_neg hmi]

lemma slotLen_setSlot (s : LoaderState) (mi j : Nat) (p : CachedPrim)
    (mi' : Nat) : slotLen (setSlot s mi j p) mi' = slotLen s mi' := by
  unfold slotLen
  rw [assocFind_setSlot]
  cases hf : assocFind s.meshCache mi' with
  | none => rfl
  | some slots =>
    simp only [Option.map]
    by_cases h : mi' = mi <;> simp [h]

lemma assocFind_append {α β : Type} [DecidableEq α] :
    ∀ (m l : List (α × β)) (k : α),
    assocFind (m ++ l) k = ((assocFind m k).orElse fun _ => assocFind l k) := by
  intro m l
  induction m with
  | nil => intro k; rfl
  | cons a t ih =>
    intro k
    by_cases h : a.1 = k <;> simp [assocFind, h, ih]

lemma getD_replicate_self {α : Type} (n i : Nat) (a : α) :
    (List.replicate n a).getD i a = a := by
  rw [List.getD_eq_getD_get?, List.get?_eq_getElem?]
  exact List.getElem?_getD_replicate_default_eq a n i

/-- First-reference cache initialization: characterization of the lookup
afterwards. -/
lemma assocFind_ensure (s : LoaderState) (mi n : Nat) (mi' : Nat) :
    assocFind (ensureMeshEntry s mi n).meshCache mi' =
      if mi' = mi ∧ assocFind s.meshCache mi = none
      then some (List.replicate n ({} : CachedPrim))
      else assocFind s.meshCache mi' := by
  unfold ensureMeshEntry
  cases hf : assocFind s.meshCache mi with
  | some slots =>
    simp [hf]
  | none =>
    show assocFind (s.meshCache ++ [(mi, List.replicate n {})]) mi' = _
    rw [assocFind_append]
    by_cases h : mi' = mi
    · subst h
      rw [hf]
      simp [assocFind]
    · simp only [h, false_and, if_false]
      cases hf' : assocFind s.meshCache mi' with
      | some slots => rfl
      | none =>
        have hne : ¬ mi = mi' := fun hh => h hh.symm
        simp [assocFind, Option.orElse, hne]

/-- Fields other than the mesh cache are untouched by ensureMeshEntry. -/
lemma ensureMeshEntry_fields (s : LoaderState) (mi n : Nat) :
    (ensureMeshEntry s mi n).primBuilds = s.primBuilds ∧
    (ensureMeshEntry s mi n).geometries = s.geometries ∧
    (ensureMeshEntry s mi n).error = s.error := by
  unfold ensureMeshEntry
  cases assocFind s.meshCache mi <;> exact ⟨rfl, rfl, rfl⟩

/-- Appending one record to the build log appends its pair to the matching
(mesh, primitive) filter and nothing elsewhere. -/
lemma buildsFor_append (s : LoaderState) (r : Nat × Nat × Nat × Nat)
    (mi j : Nat) :
    buildsFor { s with primBuilds := s.primBuilds ++ [r] } mi j =
      buildsFor s mi j ++
        (if r.1 = mi ∧ r.2.1 = j then [r.2.2] else []) := by
  unfold buildsFor
  rw [show ({ s with primBuilds := s.primBuilds ++ [r] } :
        LoaderState).primBuilds = s.primBuilds ++ [r] from rfl]
  rw [List.filter_append, List.map_append]
  by_cases h1 : r.1 = mi <;> by_cases h2 : r.2.1 = j <;>
    simp [h1, h2, List.filter]

/-- Outcome of createPrimitive: the mesh cache and geometry log are never
touched; either the build succeeds — returning a freshly built slot, logging
exactly one build record for (mi, j), keeping the error flag — or it fails,
returning the null slot with the log unchanged and the error flag set. -/
lemma createPrimitive_cases (s : LoaderState) (mi j : Nat) (p : SrcPrim) :
    (createPrimitive s mi j p).1.meshCache = s.meshCache ∧
    (createPrimitive s mi j p).1.geometries = s.geometries ∧
    ((∃ vb ib,
        (createPrimitive s mi j p).2 =
          { vertices := some vb, indices := some ib } ∧
        (createPrimitive s mi j p).1.primBuilds = s.primBuilds ++ [(mi, j, vb, ib)] ∧
        (createPrimitive s mi j p).1.error = s.error) ∨
     ((createPrimitive s mi j p).2 = {} ∧
        (createPrimitive s mi j p).1.primBuilds = s.primBuilds ∧
        (createPrimitive s mi j p).1.error = true)) := by
  rcases hI : p.indices with _ | iacc
  · refine ⟨?_, ?_, .inr ⟨?_, ?_, ?_⟩⟩ <;> simp [createPrimitive, hI]
  · by_cases hty : getIndexType iacc.componentType = false
    · refine ⟨?_, ?_, .inr ⟨?_, ?_, ?_⟩⟩ <;> simp [createPrimitive, hI, hty]
    · by_cases hall : p.attributes.all attrSupported
      · refine ⟨?_, ?_, .inl ⟨s.nextHandle + 1, s.nextHandle, ?_, ?_, ?_⟩⟩ <;>
          (simp [createPrimitive, hI, hty, hall, foldl_pushBinding] <;>
           simp [pushBinding])
      · refine ⟨?_, ?_, .inr ⟨?_, ?_, ?_⟩⟩ <;>
          (simp [createPrimitive, hI, hty, hall, foldl_pushBinding] <;>
           simp [pushBinding])

/-- createMaterialInstance never touches the mesh cache, the build log, the
geometry log or the error flag. -/
lemma createMaterialInstanceCode_fields (d : GltfData) (s : LoaderState)
    (matId : Option Nat) :
    (createMaterialInstanceCode d s matId).1.meshCache = s.meshCache ∧
    (createMaterialInstanceCode d s matId).1.geometries = s.geometries ∧
    (createMaterialInstanceCode d s matId).1.primBuilds = s.primBuilds ∧
    (createMaterialInstanceCode d s matId).1.error = s.error := by
  unfold createMaterialInstanceCode
  cases h : assocFind s.matInstanceCache matId with
  | none => exact ⟨rfl, rfl, rfl, rfl⟩
  | some inst =>
    unfold buildMaterialInstance setMaterialParams
    refine ⟨?_, ?_, ?_, ?_⟩ <;>
      (simp [processTextureSlots, foldSlots_effect, pushParam]; split <;> rfl)

lemma slotBuilds_unbuilt {p : CachedPrim} (h : p.vertices = none) :
    slotBuilds p = [] := by
  cases hI : p.indices <;> simp [slotBuilds, h, hI]

lemma slotLen_some {s : LoaderState} {mi n : Nat} (h : slotLen s mi = some n) :
    ∃ slots, assocFind s.meshCache mi = some slots ∧ slots.length = n := by
  unfold slotLen at h
  cases hf : assocFind s.meshCache mi with
  | none => rw [hf] at h; cases h
  | some slots =>
    rw [hf] at h
    exact ⟨slots, rfl, by injection h⟩

/-- ensureMeshEntry preserves the invariant, is stable, and afterwards the
entry for mi holds one slot per primitive of its mesh. -/
lemma ensureMeshEntry_inv (d : GltfData) (s : LoaderState) (mi n : Nat)
    (mesh : SrcMesh) (hm : d.meshes[mi]? = some mesh)
    (hn : n = mesh.primitives.length) (h : Inv d s) :
    Inv d (ensureMeshEntry s mi n) ∧ Stable s (ensureMeshEntry s mi n) ∧
    slotLen (ensureMeshEntry s mi n) mi = some n := by
  obtain ⟨hc, hgg, hwf, hml⟩ := h
  obtain ⟨hpb, hg, he⟩ := ensureMeshEntry_fields s mi n
  cases hf : assocFind s.meshCache mi with
  | some slots =>
    have heq : ensureMeshEntry s mi n = s := by
      unfold ensureMeshEntry
      rw [hf]
    obtain ⟨mesh', hm', hlen⟩ := hml mi slots hf
    rw [hm] at hm'
    have hmesh : mesh' = mesh := by
      injection hm' with hh
      exact hh.symm
    rw [heq]
    refine ⟨⟨hc, hgg, hwf, hml⟩, stable_refl s, ?_⟩
    unfold slotLen
    rw [hf]
    rw [hmesh] at hlen
    rw [hn, ← hlen]
    rfl
  | none =>
    have hsmi : ∀ j, slotOf s mi j = {} := by
      intro j
      unfold slotOf
      rw [hf]
    have hslot : ∀ mi' j, slotOf (ensureMeshEntry s mi n) mi' j =
        if mi' = mi then ({} : CachedPrim) else slotOf s mi' j := by
      intro mi' j
      unfold slotOf
      rw [assocFind_ensure]
      by_cases hx : mi' = mi
      · simp [hx, hf, getD_replicate_self]
      · simp [hx]
    have hsl : ∀ mi', slotLen (ensureMeshEntry s mi n) mi' =
        if mi' = mi then some n else slotLen s mi' := by
      intro mi'
      unfold slotLen
      rw [assocFind_ensure]
      by_cases hx : mi' = mi
      · simp [hx, hf]
      · simp [hx]
    refine ⟨⟨?_, ?_, ?_, ?_⟩, ⟨?_, ?_, ?_⟩, ?_⟩
    · intro mi' j
      rw [buildsFor_congr hpb, hslot]
      by_cases hx : mi' = mi
      · rw [if_pos hx, hx]
        rw [hc mi j, hsmi j]
      · rw [if_neg hx]
        exact hc mi' j
    · intro herr g hmem
      rw [he] at herr
      rw [hg] at hmem
      obtain ⟨vb, ib, h1, h2, h3⟩ := hgg herr g hmem
      refine ⟨vb, ib, h1, h2, ?_⟩
      rw [hslot]
      by_cases hx : g.mesh = mi
      · rw [hx, hsmi] at h3
        exact absurd h3 (by simp)
      · rw [if_neg hx]
        exact h3
    · intro mi' j hv
      rw [hslot] at hv ⊢
      by_cases hx : mi' = mi
      · rw [if_pos hx] at hv
        simp at hv
      · rw [if_neg hx] at hv ⊢
        exact hwf mi' j hv
    · intro mi' slots' hfind
      rw [assocFind_ensure] at hfind
      by_cases hx : mi' = mi ∧ assocFind s.meshCache mi = none
      · rw [if_pos hx] at hfind
        have : slots' = List.replicate n {} := by
          injection hfind with hh
          exact hh.symm
        refine ⟨mesh, hx.1 ▸ hm, ?_⟩
        rw [this, List.length_replicate, hn]
      · rw [if_neg hx] at hfind
        exact hml mi' slots' hfind
    · intro mi' j hv
      rw [hslot]
      by_cases hx : mi' = mi
      · rw [hx, hsmi] at hv
        simp at hv
      · rw [if_neg hx]
    · rw [he]
      exact fun hh => hh
    · intro mi' n' hl
      rw [hsl]
      by_cases hx : mi' = mi
      · rw [hx] at hl
        unfold slotLen at hl
        rw [hf] at hl
        cases hl
      · rw [if_neg hx]
        exact hl
    · rw [hsl, if_pos rfl]

/-- Appending a geometry record preserves the invariant, provided the record
carries the cached handles whenever the state is error-free. -/
lemma geomAppend_inv (d : GltfData) (s : LoaderState) (g : GeomRecord)
    (h : Inv d s)
    (hgood : s.error = false → ∃ vb ib, g.vertices = some vb ∧
      g.indices = some ib ∧
      slotOf s g.mesh g.prim = { vertices := some vb, indices := some ib }) :
    Inv d { s with geometries := s.geometries ++ [g] } ∧
    Stable s { s with geometries := s.geometries ++ [g] } := by
  obtain ⟨hc, hgg, hwf, hml⟩ := h
  refine ⟨⟨hc, ?_, hwf, hml⟩, fun _ _ _ => rfl, fun hh => hh, fun _ _ hl => hl⟩
  intro herr g' hmem
  rcases List.mem_append.mp hmem with hold | hnew
  · exact hgg herr g' hold
  · rw [List.mem_singleton.mp hnew]
    exact hgood herr

/-- The material-instance call preserves the invariant and is stable. -/
lemma materialStep_inv (d : GltfData) (s : LoaderState) (matId : Option Nat)
    (h : Inv d s) :
    Inv d (createMaterialInstanceCode d s matId).1 ∧
    Stable s (createMaterialInstanceCode d s matId).1 := by
  obtain ⟨fm, fg, fp, fe⟩ := createMaterialInstanceCode_fields d s matId
  exact inv_frame d s _ fm fp fg fe h

/-- A state passing into an error: if the caches and logs agree with an
invariant-satisfying state and the error flag is set, the invariant holds and
the step is stable. -/
lemma inv_error_frame (d : GltfData) (s s1 : LoaderState)
    (hmc : s1.meshCache = s.meshCache)
    (hpb : s1.primBuilds = s.primBuilds)
    (herr : s1.error = true)
    (h : Inv d s) : Inv d s1 ∧ Stable s s1 := by
  obtain ⟨hc, hgg, hwf, hml⟩ := h
  refine ⟨⟨?_, ?_, ?_, ?_⟩, ?_, fun _ => herr, ?_⟩
  · intro mi j
    rw [buildsFor_congr hpb, slotOf_congr hmc]
    exact hc mi j
  · intro herr'
    rw [herr] at herr'
    cases herr'
  · intro mi j hv
    rw [slotOf_congr hmc] at hv ⊢
    exact hwf mi j hv
  · intro mi slots hfind
    apply hml mi slots
    unfold assocFind at hfind ⊢
    rw [hmc] at hfind
    exact hfind
  · intro mi j _
    exact slotOf_congr hmc mi j
  · intro mi n hl
    rw [slotLen_congr hmc]
    exact hl

/-- Writing a freshly built slot after a successful createPrimitive preserves
the invariant, is stable, and leaves the built pair in the cache. -/
lemma setSlot_built_inv (d : GltfData) (s s1 : LoaderState) (mi j vb ib : Nat)
    (hmc : s1.meshCache = s.meshCache)
    (hgeo : s1.geometries = s.geometries)
    (hpb1 : s1.primBuilds = s.primBuilds ++ [(mi, j, vb, ib)])
    (herr1 : s1.error = s.error)
    (hv : (slotOf s mi j).vertices = none)
    (hlen : ∃ n, slotLen s mi = some n ∧ j < n)
    (h : Inv d s) :
    Inv d (setSlot s1 mi j { vertices := some vb, indices := some ib }) ∧
    Stable s (setSlot s1 mi j { vertices := some vb, indices := some ib }) ∧
    slotOf (setSlot s1 mi j { vertices := some vb, indices := some ib }) mi j =
      { vertices := some vb, indices := some ib } := by
  obtain ⟨hc, hgg, hwf, hml⟩ := h
  obtain ⟨nn, hsl, hj⟩ := hlen
  obtain ⟨slots, hfind, hslen⟩ := slotLen_some hsl
  have hfind1 : assocFind s1.meshCache mi = some slots := by rw [hmc]; exact hfind
  have hjlen : j < slots.length := by rw [hslen]; exact hj
  have hsame : slotOf (setSlot s1 mi j
      { vertices := some vb, indices := some ib }) mi j =
      { vertices := some vb, indices := some ib } :=
    slotOf_setSlot_same s1 mi j _ slots hfind1 hjlen
  have hne : ∀ mi' j', mi' ≠ mi ∨ j' ≠ j →
      slotOf (setSlot s1 mi j { vertices := some vb, indices := some ib }) mi' j' =
      slotOf s mi' j' := by
    intro mi' j' hx
    rw [slotOf_setSlot_ne s1 mi j _ mi' j' hx]
    exact slotOf_congr hmc mi' j'
  have hbuilds : ∀ mi' j',
      buildsFor (setSlot s1 mi j { vertices := some vb, indices := some ib }) mi' j' =
      buildsFor s mi' j' ++ (if mi = mi' ∧ j = j' then [(vb, ib)] else []) := by
    intro mi' j'
    have h1 : buildsFor (setSlot s1 mi j
        { vertices := some vb, indices := some ib }) mi' j' =
        buildsFor { s with primBuilds := s.primBuilds ++ [(mi, j, vb, ib)] } mi' j' := by
      apply buildsFor_congr
      show s1.primBuilds = s.primBuilds ++ [(mi, j, vb, ib)]
      exact hpb1
    rw [h1, buildsFor_append]
  refine ⟨⟨?_, ?_, ?_, ?_⟩, ⟨?_, ?_, ?_⟩, hsame⟩
  · intro mi' j'
    rw [hbuilds]
    by_cases hx : mi = mi' ∧ j = j'
    · rw [if_pos hx, ← hx.1, ← hx.2, hsame]
      rw [hc mi j, slotBuilds_unbuilt hv]
      rfl
    · rw [if_neg hx, List.append_nil]
      have hx' : mi' ≠ mi ∨ j' ≠ j := by
        by_cases h1 : mi' = mi
        · right
          intro h2
          exact hx ⟨h1.symm, h2.symm⟩
        · left
          exact h1
      rw [hne mi' j' hx']
      exact hc mi' j'
  · intro herr g hmem
    have herr' : s.error = false := by
      rw [← herr1]
      exact herr
    have hmem' : g ∈ s.geometries := by
      rw [← hgeo]
      exact hmem
    obtain ⟨vb', ib', h1, h2, h3⟩ := hgg herr' g hmem'
    refine ⟨vb', ib', h1, h2, ?_⟩
    have hx : g.mesh ≠ mi ∨ g.prim ≠ j := by
      by_cases hgm : g.mesh = mi
      · right
        intro hgp
        rw [hgm, hgp] at h3
        rw [h3] at hv
        cases hv
      · left
        exact hgm
    rw [hne _ _ hx]
    exact h3
  · intro mi' j' hvs
    by_cases hx : mi' = mi ∧ j' = j
    · rw [hx.1, hx.2, hsame]
      exact ⟨vb, ib, rfl⟩
    · have hx' : mi' ≠ mi ∨ j' ≠ j := by
        by_cases h1 : mi' = mi
        · right
          intro h2
          exact hx ⟨h1, h2⟩
        · left
          exact h1
      rw [hne _ _ hx'] at hvs ⊢
      exact hwf mi' j' hvs
  · intro mi' slots' hfind'
    rw [assocFind_setSlot] at hfind'
    rw [hmc] at hfind'
    cases hf0 : assocFind s.meshCache mi' with
    | none =>
      rw [hf0] at hfind'
      cases hfind'
    | some slots0 =>
      rw [hf0] at hfind'
      obtain ⟨mesh, hm0, hl0⟩ := hml mi' slots0 hf0
      refine ⟨mesh, hm0, ?_⟩
      have : slots' = if mi' = mi then slots0.set j
          { vertices := some vb, indices := some ib } else slots0 := by
        injection hfind' with hh
        exact hh.symm
      rw [this]
      by_cases hx : mi' = mi
      · rw [if_pos hx, List.length_set]
        exact hl0
      · rw [if_neg hx]
        exact hl0
  · intro mi' j' hvs
    have hx : mi' ≠ mi ∨ j' ≠ j := by
      by_cases h1 : mi' = mi
      · right
        intro h2
        rw [h1, h2] at hvs
        rw [hv] at hvs
        cases hvs
      · left
        exact h1
    exact hne mi' j' hx
  · intro hh
    show s1.error = true
    rw [herr1]
    exact hh
  · intro mi' n' hl
    rw [slotLen_setSlot, slotLen_congr hmc]
    exact hl

/-- One primitive-loop iteration preserves the invariant and is stable,
provided the mesh-cache entry covers this primitive index. -/
lemma processOnePrim_inv (d : GltfData) (entity mi j : Nat) (p : SrcPrim)
    (s : LoaderState) (h : Inv d s)
    (hlen : ∃ n, slotLen s mi = some n ∧ j < n) :
    Inv d (processOnePrim d entity mi j p s) ∧
    Stable s (processOnePrim d entity mi j p s) := by
  by_cases htop : getPrimitiveType p.topology = false
  · have heq : processOnePrim d entity mi j p s = { s with error := true } := by
      unfold processOnePrim
      rw [if_pos htop]
    rw [heq]
    exact inv_error h
  · by_cases hv : (slotOf s mi j).vertices = none
    · obtain ⟨hmc, hgeo, hout⟩ := createPrimitive_cases s mi j p
      rcases hcp : createPrimitive s mi j p with ⟨s1, r⟩
      rw [hcp] at hmc hgeo hout
      simp only at hmc hgeo hout
      rcases hout with ⟨vb, ib, hr, hpb1, herr1⟩ | ⟨hr, hpb1, herr1⟩
      · have heq : processOnePrim d entity mi j p s =
            (createMaterialInstanceCode d
              { setSlot s1 mi j { vertices := some vb, indices := some ib } with
                geometries :=
                  (setSlot s1 mi j
                    { vertices := some vb, indices := some ib }).geometries ++
                    [{ entity := entity, mesh := mi, prim := j,
                       vertices := some vb, indices := some ib }] }
              p.material).1 := by
          simp only [processOnePrim, if_neg htop, hv, hcp, hr]
          simp
        rw [heq]
        obtain ⟨hI2, hS2, hslot2⟩ :=
          setSlot_built_inv d s s1 mi j vb ib hmc hgeo hpb1 herr1 hv hlen h
        obtain ⟨hI3, hS3⟩ := geomAppend_inv d
          (setSlot s1 mi j { vertices := some vb, indices := some ib })
          { entity := entity, mesh := mi, prim := j,
            vertices := some vb, indices := some ib } hI2
          (fun _ => ⟨vb, ib, rfl, rfl, hslot2⟩)
        obtain ⟨hI4, hS4⟩ := materialStep_inv d _ p.material hI3
        exact ⟨hI4, stable_trans hS2 (stable_trans hS3 hS4)⟩
      · have heq : processOnePrim d entity mi j p s =
            (createMaterialInstanceCode d
              { s1 with geometries := s1.geometries ++
                  [{ entity := entity, mesh := mi, prim := j,
                     vertices := (slotOf s mi j).vertices,
                     indices := (slotOf s mi j).indices }] }
              p.material).1 := by
          simp only [processOnePrim, if_neg htop, hv, hcp, hr]
          simp
          rw [hv]
        rw [heq]
        obtain ⟨hI1, hS1⟩ := inv_error_frame d s s1 hmc hpb1 herr1 h
        obtain ⟨hI2, hS2⟩ := geomAppend_inv d s1 _ hI1
          (fun herr => absurd (herr1.symm.trans herr) (by simp))
        obtain ⟨hI3, hS3⟩ := materialStep_inv d _ p.material hI2
        exact ⟨hI3, stable_trans hS1 (stable_trans hS2 hS3)⟩
    · obtain ⟨vb, ib, hslot⟩ := h.2.2.1 mi j (by
        cases hvv : (slotOf s mi j).vertices with
        | none => exact absurd hvv hv
        | some _ => rfl)
      have heq : processOnePrim d entity mi j p s =
          (createMaterialInstanceCode d
            { s with geometries := s.geometries ++
                [{ entity := entity, mesh := mi, prim := j,
                   vertices := (slotOf s mi j).vertices,
                   indices := (slotOf s mi j).indices }] } p.material).1 := by
        simp only [processOnePrim, if_neg htop, if_neg hv]
      rw [heq]
      obtain ⟨hI2, hS2⟩ := geomAppend_inv d s
        { entity := entity, mesh := mi, prim := j,
          vertices := (slotOf s mi j).vertices,
          indices := (slotOf s mi j).indices } h
        (fun _ => ⟨vb, ib, by show (slotOf s mi j).vertices = some vb; rw [hslot],
          by show (slotOf s mi j).indices = some ib; rw [hslot], hslot⟩)
      obtain ⟨hI3, hS3⟩ := materialStep_inv d _ p.material hI2
      exact ⟨hI3, stable_trans hS2 hS3⟩

/-- The primitive loop preserves the invariant and is stable. -/
lemma processPrims_inv (d : GltfData) (entity mi : Nat) :
    ∀ (prims : List SrcPrim) (j : Nat) (s : LoaderState), Inv d s →
    (∃ n, slotLen s mi = some n ∧ j + prims.length ≤ n) →
    Inv d (processPrims d entity mi j prims s) ∧
    Stable s (processPrims d entity mi j prims s) := by
  intro prims
  induction prims with
  | nil =>
    intro j s h _
    exact ⟨h, stable_refl s⟩
  | cons p rest ih =>
    intro j s h hlen
    obtain ⟨n, hsl, hle⟩ := hlen
    rw [List.length_cons] at hle
    have hj : j < n := by omega
    obtain ⟨hI1, hS1⟩ := processOnePrim_inv d entity mi j p s h ⟨n, hsl, hj⟩
    have hsl1 : slotLen (processOnePrim d entity mi j p s) mi = some n :=
      hS1.2.2 mi n hsl
    obtain ⟨hI2, hS2⟩ := ih (j + 1) _ hI1 ⟨n, hsl1, by omega⟩
    exact ⟨hI2, stable_trans hS1 hS2⟩

/-- The mesh branch of createEntity preserves the invariant and is stable. -/
lemma processMesh_inv (d : GltfData) (entity mi : Nat) (s : LoaderState)
    (h : Inv d s) :
    Inv d (processMesh d entity mi s) ∧ Stable s (processMesh d entity mi s) := by
  unfold processMesh
  cases hm : d.meshes[mi]? with
  | none => exact ⟨h, stable_refl s⟩
  | some mesh =>
    obtain ⟨hI1, hS1, hsl⟩ :=
      ensureMeshEntry_inv d s mi mesh.primitives.length mesh hm rfl h
    obtain ⟨hI2, hS2⟩ := processPrims_inv d entity mi mesh.primitives 0 _ hI1
      ⟨mesh.primitives.length, hsl, by omega⟩
    exact ⟨hI2, stable_trans hS1 hS2⟩

/-- The entity/transform bookkeeping at the top of createEntity, as one state
update (used only to phrase the invariant proof; definitionally equal to the
two successive updates in createEntity). -/
def entityStep (s : LoaderState) (parent : Nat) : LoaderState :=
  { s with nextEntity := s.nextEntity + 1,
           createdEntities := s.createdEntities ++ [s.nextEntity],
           transforms := s.transforms ++
             [(s.nextEntity,
               if s.transforms.any (fun t => decide (t.1 = parent))
               then parent else 0)] }

mutual

/-- Visiting a node preserves the invariant and is stable. -/
lemma createEntity_inv (d : GltfData) : ∀ (nd : SrcNode) (parent : Nat)
    (s : LoaderState), Inv d s →
    Inv d (createEntity d parent s nd) ∧ Stable s (createEntity d parent s nd)
  | .mk mesh children, parent, s, h => by
    simp only [createEntity]
    cases mesh with
    | none =>
      obtain ⟨hI1, hS1⟩ :=
        inv_frame d s (entityStep s parent) rfl rfl rfl rfl h
      obtain ⟨hI2, hS2⟩ := createEntityList_inv d children s.nextEntity _ hI1
      exact ⟨hI2, stable_trans hS1 hS2⟩
    | some mi =>
      obtain ⟨hI1, hS1⟩ :=
        inv_frame d s (entityStep s parent) rfl rfl rfl rfl h
      obtain ⟨hI2, hS2⟩ := processMesh_inv d s.nextEntity mi _ hI1
      obtain ⟨hI3, hS3⟩ := createEntityList_inv d children s.nextEntity _ hI2
      exact ⟨hI3, stable_trans hS1 (stable_trans hS2 hS3)⟩

/-- Visiting a node list preserves the invariant and is stable. -/
lemma createEntityList_inv (d : GltfData) : ∀ (ns : List SrcNode) (parent : Nat)
    (s : LoaderState), Inv d s →
    Inv d (createEntityList d parent s ns) ∧
    Stable s (createEntityList d parent s ns)
  | [], _, s, h => by
    simp only [createEntityList]
    exact ⟨h, stable_refl s⟩
  | n :: ns, parent, s, h => by
    simp only [createEntityList]
    obtain ⟨hI1, hS1⟩ := createEntity_inv d n parent s h
    obtain ⟨hI2, hS2⟩ := createEntityList_inv d ns parent _ hI1
    exact ⟨hI2, stable_trans hS1 hS2⟩

end

/-- The invariant holds in the fresh loader state. -/
lemma inv_init (d : GltfData) : Inv d ({} : LoaderState) := by
  refine ⟨fun mi j => rfl, fun _ g hg => absurd hg (by simp), ?_, ?_⟩
  · intro mi j hv
    simp [slotOf, assocFind] at hv
  · intro mi slots hf
    simp [assocFind] at hf

/-- Case split on one build call. -/
lemma buildAsset_cases (d : GltfData) :
    ((buildAsset d).pre.geometries = [] ∧ (buildAsset d).asset = some {}) ∨
    (∃ scene, chosenScene d = some scene ∧
      (buildAsset d).pre = createEntityList d 0 {} scene.roots ∧
      ((buildAsset d).asset.isSome = true → (buildAsset d).pre.error = false)) := by
  cases hcs : chosenScene d with
  | none =>
    left
    constructor
    · show (buildAsset d).pre.geometries = []
      unfold buildAsset createAsset
      simp only [hcs]
    · show (buildAsset d).asset = some {}
      unfold buildAsset createAsset
      simp only [hcs]
  | some scene =>
    right
    have hpre : (buildAsset d).pre = createEntityList d 0 {} scene.roots := by
      unfold buildAsset createAsset
      simp only [hcs]
      split <;> rfl
    refine ⟨scene, rfl, hpre, ?_⟩
    intro hs
    rw [hpre]
    unfold buildAsset createAsset at hs
    simp only [hcs] at hs
    split at hs
    · simp at hs
    · rename_i hne
      cases hb : (createEntityList d 0 {} scene.roots).error with
      | false => rfl
      | true => exact absurd hb hne

/-- C5: in a successful build, whenever two renderable attachments reference
the same (mesh, primitive index), they carry identical vertex/index buffer
handles (identity reuse through the mesh cache), and exactly one buffer pair
was ever created for that (mesh, primitive index) — the cached one, built on
the first reference. -/
theorem mesh_cache_unique_buffer_pair (d : GltfData)
    (hok : (buildAsset d).asset.isSome = true)
    (g1 g2 : GeomRecord)
    (h1 : g1 ∈ (buildAsset d).pre.geometries)
    (h2 : g2 ∈ (buildAsset d).pre.geometries)
    (hmesh : g2.mesh = g1.mesh) (hprim : g2.prim = g1.prim) :
    ∃ vb ib, g1.vertices = some vb ∧ g1.indices = some ib ∧
      g2.vertices = some vb ∧ g2.indices = some ib ∧
      buildsFor (buildAsset d).pre g1.mesh g1.prim = [(vb, ib)] := by
  rcases buildAsset_cases d with ⟨hge, _⟩ | ⟨scene, hcs, hpre, herrf⟩
  · rw [hge] at h1
    cases h1
  · have herr : (buildAsset d).pre.error = false := herrf hok
    have hInv : Inv d (buildAsset d).pre := by
      rw [hpre]
      exact (createEntityList_inv d scene.roots 0 {} (inv_init d)).1
    obtain ⟨hc, hgg, hwf, hml⟩ := hInv
    obtain ⟨vb, ib, a1, b1, c1⟩ := hgg herr g1 h1
    obtain ⟨vb2, ib2, a2, b2, c2⟩ := hgg herr g2 h2
    rw [hmesh, hprim] at c2
    have hEq := c1.symm.trans c2
    have hvbib : some vb = some vb2 ∧ some ib = some ib2 := by
      constructor
      · exact congrArg CachedPrim.vertices hEq
      · exact congrArg CachedPrim.indices hEq
    refine ⟨vb, ib, a1, b1, ?_, ?_, ?_⟩
    · rw [a2, ← hvbib.1]
    · rw [b2, ← hvbib.2]
    · rw [hc g1.mesh g1.prim, c1]
      rfl

/-- A document whose two root nodes both reference mesh 0 (one primitive). -/
def DocSharedMesh : GltfData :=
  { scenes := [{ roots := [.mk (some 0) [], .mk (some 0) []] }],
    meshes := [{ primitives := [triPrim] }],
    materials := [{}] }

/-- The first node's renderable attachment in DocSharedMesh. -/
def geomA : GeomRecord :=
  { entity := 1, mesh := 0, prim := 0, vertices := some 1, indices := some 0 }

/-- The second node's renderable attachment in DocSharedMesh. -/
def geomB : GeomRecord :=
  { entity := 2, mesh := 0, prim := 0, vertices := some 1, indices := some 0 }

/-- Witness for C5: the two attachments of DocSharedMesh share the single
buffer pair built for (mesh 0, primitive 0). -/
theorem mesh_cache_witness :
    ∃ vb ib, geomA.vertices = some vb ∧ geomA.indices = some ib ∧
      geomB.vertices = some vb ∧ geomB.indices = some ib ∧
      buildsFor (buildAsset DocSharedMesh).pre geomA.mesh geomA.prim =
        [(vb, ib)] :=
  mesh_cache_unique_buffer_pair DocSharedMesh rfl geomA geomB
    (by decide) (by decide) rfl rfl

end Gltfio

